import Mathlib

/-!
Verification development for the Ebooks-Extractor-App repository.

The repository is a Streamlit application (src/app.py) driving two
near-duplicate scraping modules (src/scraper_util.py, the one the app
imports, and src/scraper_functions.py).  This file gives a shallow
embedding of the data model and the pure parts of those modules, models
the stateful pagination loop of app.py as a fuel-indexed recursion over
an abstract page oracle, and proves the specification claims about them.

Modelling conventions:
- A Python dict record is embedded as a structure of Option fields; an
  absent key and a null value both make dict.get return None, so both
  map to Option.none.
- A Python dict used as a name-to-id mapping is embedded as the list of
  (name, id) pairs in insertion order (names are assumed unique by the
  remote API, as the spec states).
- A Python exception is embedded as an Option/Except failure value.
- Network calls are abstracted by oracles from request parameters to
  decoded responses; the requests actually issued are logged explicitly
  so that request-count claims are statable.
-/

namespace EbooksExtractor

/-- Python scalar value as it appears in a parsed record / CSV cell. -/
inductive PyVal where
  | null
  | str (s : String)
  | int (n : Int)
deriving DecidableEq

/-- One entry of the authors list of a raw record: a dict read only at
key name, so embedded as that single optional field. -/
structure Author where
  name : Option String
deriving DecidableEq

/-- A raw record from the search endpoint, restricted to the keys the
normalizers read via dict.get; absent and null both embed to none. -/
structure RawRecord where
  id : Option String
  title : Option String
  subtitle : Option String
  description : Option String
  publisher : Option String
  edition : Option String
  on_sale_date : Option String
  short_publication_date : Option String
  publication_year : Option Int
  price : Option String
  authors : Option (List Author)
  num_authors : Option Int
  book_url : Option String
  image_url : Option String
deriving DecidableEq

/-- A raw record with every optional key absent. -/
def emptyRaw : RawRecord :=
  ⟨Option.none, Option.none, Option.none, Option.none, Option.none,
   Option.none, Option.none, Option.none, Option.none, Option.none,
   Option.none, Option.none, Option.none, Option.none⟩

/-- The fixed site root (the local website_url constant of both
parse_books_data variants). -/
def website_url : String := "https://www.ebooks.com/"

/-- String prefix test over the underlying character list (the library
test does not reduce inside the kernel, so claims about concrete URLs
could not be settled by evaluation with it). -/
def strStartsWith (s p : String) : Bool :=
  p.data.isPrefixOf s.data

/-- String suffix test over the underlying character list. -/
def strEndsWith (s p : String) : Bool :=
  p.data.isSuffixOf s.data

/-- Drop the last n characters of a string. -/
def strDropRight (s : String) (n : Nat) : String :=
  ⟨s.data.take (s.data.length - n)⟩

/-- Model of Python urllib.parse.urljoin as called in the source: the
base is always the fixed site root, and the second argument may be None
(dict.get of a missing book_url), in which case urljoin returns the base
unchanged.  For a string argument the model covers the reference shapes
that occur: empty string (base returned), absolute http/https URL
(returned unchanged), scheme-relative reference (scheme of the base
prepended), root-relative path (appended to the site root without its
trailing slash), plain relative path (appended to the base, whose path
is the bare slash). -/
def urljoin (base : String) (url : Option String) : String :=
  match url with
  | Option.none => base
  | Option.some u =>
    if u = "" then base
    else if strStartsWith u ("http://") || strStartsWith u ("https://") then u
    else if strStartsWith u ("//") then "https:" ++ u
    else if strStartsWith u ("/") then
      (if strEndsWith base ("/") then strDropRight base 1 else base) ++ u
    else base ++ u

/-- Python list comprehension over the authors list: collect each
the name of each entry via dict.get (None when absent). -/
def authorNames (l : List Author) : List (Option String) :=
  l.map Author.name

/-- Succeeds with the underlying strings iff every element is a string
(Python list of str-or-None values fed to str.join). -/
def collectStrings : List (Option String) → Option (List String)
  | [] => Option.some []
  | o :: rest =>
    match o, collectStrings rest with
    | Option.some s, Option.some ss => Option.some (s :: ss)
    | _, _ => Option.none

/-- Model of str.join applied to a list that may contain None: Python
raises TypeError on a non-string element, embedded as none. -/
def pyJoin (sep : String) (items : List (Option String)) : Option String :=
  (collectStrings items).map (String.intercalate sep)

namespace ScraperUtil

/-- The Book dataclass of src/scraper_util.py, fields in declaration
order.  prime_authors and book_url are always assigned str values by
parse_books_data, so they embed as String. -/
structure Book where
  book_id : Option String
  book_title : Option String
  book_subtitle : Option String
  book_description : Option String
  publisher : Option String
  edition : Option String
  publication_date : Option String
  publication_month_year : Option String
  publication_year : Option Int
  price : Option String
  prime_authors : String
  num_authors : Option Int
  book_url : String
  book_image_url : Option String
deriving DecidableEq

/-- parse_books_data of src/scraper_util.py.  The conditional
expression joining the author names runs only when authors_data is
truthy (a non-None, non-empty list); otherwise the joined string is
empty.  The join raises TypeError (none) when an author entry has no
name.  An empty joined string is falsy, so prime_authors falls back to
the literal Unknown. -/
def parse_books_data (book : RawRecord) : Option Book :=
  let authorsJoined : Option String :=
    match book.authors with
    | Option.none => Option.some ("")
    | Option.some [] => Option.some ("")
    | Option.some l => pyJoin (", ") (authorNames l)
  match authorsJoined with
  | Option.none => Option.none
  | Option.some authors =>
    Option.some
      { book_id := book.id
        book_title := book.title
        book_subtitle := book.subtitle
        book_description := book.description
        publisher := book.publisher
        edition := book.edition
        publication_date := book.on_sale_date
        publication_month_year := book.short_publication_date
        publication_year := book.publication_year
        price := book.price
        prime_authors := if authors = "" then "Unknown" else authors
        num_authors := book.num_authors
        book_url := urljoin website_url book.book_url
        book_image_url := book.image_url }

/-- Coerce an optional string field to its dict value. -/
def optStrVal (o : Option String) : PyVal :=
  match o with
  | Option.none => PyVal.null
  | Option.some s => PyVal.str s

/-- Coerce an optional int field to its dict value. -/
def optIntVal (o : Option Int) : PyVal :=
  match o with
  | Option.none => PyVal.null
  | Option.some n => PyVal.int n

/-- dataclasses.asdict on the Book dataclass: the key/value pairs of
the resulting dict, in field declaration order. -/
def asdictPairs (b : Book) : List (String × PyVal) :=
  [(("book_id"), optStrVal b.book_id),
   (("book_title"), optStrVal b.book_title),
   (("book_subtitle"), optStrVal b.book_subtitle),
   (("book_description"), optStrVal b.book_description),
   (("publisher"), optStrVal b.publisher),
   (("edition"), optStrVal b.edition),
   (("publication_date"), optStrVal b.publication_date),
   (("publication_month_year"), optStrVal b.publication_month_year),
   (("publication_year"), optIntVal b.publication_year),
   (("price"), optStrVal b.price),
   (("prime_authors"), PyVal.str b.prime_authors),
   (("num_authors"), optIntVal b.num_authors),
   (("book_url"), PyVal.str b.book_url),
   (("book_image_url"), optStrVal b.book_image_url)]

end ScraperUtil

namespace ScraperFunctions

/-- The Book dataclass of src/scraper_functions.py, fields in
declaration order.  authors and book_url are always assigned str
values by parse_books_data, so they embed as String. -/
structure Book where
  book_id : Option String
  book_title : Option String
  publication_year : Option Int
  price : Option String
  authors : String
  book_url : String
  book_image_url : Option String
deriving DecidableEq

/-- parse_books_data of src/scraper_functions.py.  Here authors starts
as the empty string and is replaced by the joined names whenever
authors_data is not None (including the empty list, whose join is also
the empty string); there is no Unknown fallback.  The join raises
TypeError (none) when an author entry has no name. -/
def parse_books_data (book : RawRecord) : Option Book :=
  let authorsJoined : Option String :=
    match book.authors with
    | Option.none => Option.some ("")
    | Option.some l => pyJoin (", ") (authorNames l)
  match authorsJoined with
  | Option.none => Option.none
  | Option.some authors =>
    Option.some
      { book_id := book.id
        book_title := book.title
        publication_year := book.publication_year
        price := book.price
        authors := authors
        book_url := urljoin website_url book.book_url
        book_image_url := book.image_url }

end ScraperFunctions

namespace App

/-- One row appended to all_books_details in app.py: the dict returned
by the normalizer with the scrape_timestamp key assigned afterwards
(Python dicts keep insertion order, so the new key comes last). -/
def appRow (ts : String) (b : ScraperUtil.Book) : List (String × PyVal) :=
  ScraperUtil.asdictPairs b ++ [(("scrape_timestamp"), PyVal.str ts)]

/-- Outcome of a run of the while-True pagination loop in app.py:
normal loop exit with the accumulated rows, an uncaught exception, or
fuel exhaustion (the loop had not yet terminated within the given
number of iterations). -/
inductive RunResult where
  | ok (rows : List (List (String × PyVal)))
  | err (msg : String)
  | fuelOut
deriving DecidableEq

/-- Run the normalizer over the records of a page in order, failing at
the first record it raises on. -/
def collectParsed : List RawRecord → Option (List ScraperUtil.Book)
  | [] => Option.some []
  | r :: rest =>
    match ScraperUtil.parse_books_data r, collectParsed rest with
    | Option.some b, Option.some bs => Option.some (b :: bs)
    | _, _ => Option.none

/-- Normalize and timestamp every record of one page, failing if any
normalization raises. -/
def collectRows (books : List RawRecord) (ts : String) :
    Option (List (List (String × PyVal))) :=
  (collectParsed books).map (List.map (appRow ts))

/-- The body of the while-True loop of app.py (lines 121-146), one
constructor case per iteration, indexed by fuel.  The page oracle maps
a page number to the books value of the search response (none embeds a
null books field, the case in which get_books_data returns None).
Each iteration fetches the current page; a None or empty page breaks
the loop and yields the accumulated rows.  Otherwise every record is
normalized (a TypeError from the normalizer aborts the run), given the
scrape timestamp, and appended; then the page number is incremented and
the progress percentage collected/total*100 is computed, which raises
ZeroDivisionError when the expected total is zero. -/
def appCollectAux (pages : Nat → Option (List RawRecord)) (total : Nat)
    (ts : String) : Nat → Nat → List (List (String × PyVal)) → RunResult
  | 0, _, _ => RunResult.fuelOut
  | fuel + 1, pageNum, acc =>
    match pages pageNum with
    | Option.none => RunResult.ok acc
    | Option.some books =>
      if books.isEmpty then RunResult.ok acc
      else
        match collectRows books ts with
        | Option.none => RunResult.err ("TypeError")
        | Option.some newRows =>
          let acc2 := acc ++ newRows
          if total = 0 then RunResult.err ("ZeroDivisionError")
          else appCollectAux pages total ts fuel (pageNum + 1) acc2

/-- The whole extraction run of app.py after the Get Data button:
PAGE_NUM starts at 1 with an empty row list, total is the expected
total obtained beforehand from the search endpoint. -/
def appCollect (pages : Nat → Option (List RawRecord)) (total : Nat)
    (ts : String) (fuel : Nat) : RunResult :=
  appCollectAux pages total ts fuel 1 []

/-- Whether a fetched page terminates the loop: the books value is
null, or it is an empty list. -/
def pageIsEmpty (o : Option (List RawRecord)) : Bool :=
  (o.getD []).isEmpty

/-- Number of raw records served by the oracle on the block of n pages
starting at page p. -/
def rawSeenFrom (pages : Nat → Option (List RawRecord)) : Nat → Nat → Nat
  | _, 0 => 0
  | p, n + 1 => ((pages p).getD []).length + rawSeenFrom pages (p + 1) n

/-- The raw records served by the oracle on the block of n pages
starting at page p, concatenated in page order. -/
def pagesConcat (pages : Nat → Option (List RawRecord)) :
    Nat → Nat → List RawRecord
  | _, 0 => []
  | p, n + 1 => ((pages p).getD []) ++ pagesConcat pages (p + 1) n

end App

/-- One entry of a subject menu as read by the modules: the
subject_name and id keys. -/
structure MenuEntry where
  subject_name : String
  id : Int
deriving DecidableEq

/-- One element of the subject_menus array: only its
subject_menu_entries key is read. -/
structure SubjectMenu where
  subject_menu_entries : List MenuEntry
deriving DecidableEq

/-- Decoded JSON of the subject-menu endpoint: only its subject_menus
key is read. -/
structure MenuResponse where
  subject_menus : List SubjectMenu
deriving DecidableEq

/-- One GET request to the subject-menu endpoint, identified by the
query parameters the source sets (the randomized user-agent header is
not observable by any claim and is omitted). -/
structure MenuRequest where
  countryCode : String
  subjectID : Nat
deriving DecidableEq

/-- The request both modules build for the subject-menu endpoint. -/
def menuRequest (sid : Nat) : MenuRequest :=
  ⟨"US", sid⟩

/-- Reading subject_menus[idx] and building the name-to-id dict from
its subject_menu_entries; none embeds the IndexError raised when the
array is too short. -/
def menuGroupAt (resp : MenuResponse) (idx : Nat) :
    Option (List (String × Int)) :=
  (resp.subject_menus.get? idx).map
    (fun m => m.subject_menu_entries.map (fun e => (e.subject_name, e.id)))

namespace ScraperUtil

/-- get_category_subjects of src/scraper_util.py.  Its inner helper
fetch_category_subjects issues its own GET request with subjectID 184
on every call, and the function calls it three times (item_idx 1, 2 and
3), so three identical requests are issued; the requests actually sent
are returned alongside the result (an IndexError in an earlier call
prevents the later calls). -/
def get_category_subjects (oracle : MenuRequest → MenuResponse) :
    Option (List (List (String × Int))) × List MenuRequest :=
  let req := menuRequest 184
  match menuGroupAt (oracle req) 1 with
  | Option.none => (Option.none, [req])
  | Option.some popular_cat_dict =>
    match menuGroupAt (oracle req) 2 with
    | Option.none => (Option.none, [req, req])
    | Option.some fiction_cat_dict =>
      match menuGroupAt (oracle req) 3 with
      | Option.none => (Option.none, [req, req, req])
      | Option.some non_fiction_cat_dict =>
        (Option.some [popular_cat_dict, fiction_cat_dict, non_fiction_cat_dict],
         [req, req, req])

end ScraperUtil

namespace ScraperFunctions

/-- get_category_subjects of src/scraper_functions.py: one GET request
with subjectID 184, whose response is indexed at 1, 2 and 3 to build
the three category dicts. -/
def get_category_subjects (oracle : MenuRequest → MenuResponse) :
    Option (List (List (String × Int))) × List MenuRequest :=
  let req := menuRequest 184
  let json_response := oracle req
  match menuGroupAt json_response 1, menuGroupAt json_response 2,
      menuGroupAt json_response 3 with
  | Option.some popular_cat_dict, Option.some fiction_cat_dict,
      Option.some non_fiction_cat_dict =>
    (Option.some [popular_cat_dict, fiction_cat_dict, non_fiction_cat_dict],
     [req])
  | _, _, _ => (Option.none, [req])

end ScraperFunctions

/-- Names of the functions defined at module top level in
src/scraper_util.py (the module src/app.py imports as su). -/
def scraperUtilDefinedNames : List String :=
  [("parse_books_data"), ("get_category_subjects"), ("get_topics"),
   ("total_books_present"), ("get_books_data")]

/-- Attribute names src/app.py looks up on the imported scraper_util
module during the extraction flow, in evaluation order. -/
def appCalledNames : List String :=
  [("get_category_subjects"), ("get_topics_for_subject"),
   ("fetch_total_books_count"), ("fetch_books_data"),
   ("parse_books_details")]

/-- The output field list exactly as written in section 4.3 of the
specification; this is the spec side of the exported-header claim and
is deliberately transcribed from the spec, not from the source. -/
def specSection43Fields : List String :=
  [("book_id"), ("book_title"), ("book_subtitle"), ("book_description"),
   ("publisher"), ("edition"), ("publication_date"),
   ("publication_month_year"), ("publication_year"), ("price"),
   ("prime_authors"), ("num_authors"), ("book_url"), ("book_image_url")]

/-! Helper lemmas. -/

/-- Joining the names of an authors list succeeds whenever every entry
carries a name. -/
theorem collectStrings_authorNames_isSome (l : List Author)
    (h : ∀ a ∈ l, a.name ≠ Option.none) :
    ∃ ss, collectStrings (authorNames l) = Option.some ss := by
  induction l with
  | nil => exact ⟨[], rfl⟩
  | cons a rest ih =>
    obtain ⟨ss, hss⟩ := ih (fun x hx => h x (List.mem_cons_of_mem _ hx))
    obtain ⟨n, hn⟩ :=
      Option.ne_none_iff_exists'.mp (h a (List.mem_cons_self _ _))
    refine ⟨n :: ss, ?_⟩
    show (match a.name, collectStrings (authorNames rest) with
      | Option.some s, Option.some ss => Option.some (s :: ss)
      | _, _ => Option.none) = Option.some (n :: ss)
    rw [hn, hss]

/-- A successful page parse yields exactly one output row per raw
record. -/
theorem collectParsed_length (xs : List RawRecord)
    (a : List ScraperUtil.Book)
    (h : App.collectParsed xs = Option.some a) : a.length = xs.length := by
  induction xs generalizing a with
  | nil =>
    simp only [App.collectParsed, Option.some.injEq] at h
    subst h; rfl
  | cons r rest ih =>
    rw [App.collectParsed] at h
    rcases hr : ScraperUtil.parse_books_data r with _ | bk <;> rw [hr] at h
    · simp at h
    rcases hrest : App.collectParsed rest with _ | bs <;> rw [hrest] at h
    · simp at h
    simp only [Option.some.injEq] at h
    subst h
    simp [ih bs hrest]

/-- Page parsing distributes over concatenation of record lists. -/
theorem collectParsed_append (xs ys : List RawRecord)
    (a b : List ScraperUtil.Book)
    (hx : App.collectParsed xs = Option.some a)
    (hy : App.collectParsed ys = Option.some b) :
    App.collectParsed (xs ++ ys) = Option.some (a ++ b) := by
  induction xs generalizing a with
  | nil =>
    simp only [App.collectParsed, Option.some.injEq] at hx
    subst hx; simpa using hy
  | cons r rest ih =>
    rw [App.collectParsed] at hx
    rcases hr : ScraperUtil.parse_books_data r with _ | bk <;> rw [hr] at hx
    · simp at hx
    rcases hrest : App.collectParsed rest with _ | bs <;> rw [hrest] at hx
    · simp at hx
    simp only [Option.some.injEq] at hx
    subst hx
    have h2 := ih bs hrest
    rw [List.cons_append, App.collectParsed, hr, h2]
    rfl

/-- Row building for a page yields one row per raw record. -/
theorem collectRows_length (xs : List RawRecord) (ts : String)
    (rs : List (List (String × PyVal)))
    (h : App.collectRows xs ts = Option.some rs) : rs.length = xs.length := by
  rw [App.collectRows] at h
  rcases hp : App.collectParsed xs with _ | a <;> rw [hp] at h
  · simp at h
  simp only [Option.map, Option.some.injEq] at h
  subst h
  simpa using collectParsed_length xs a hp

/-- Row building distributes over concatenation of record lists. -/
theorem collectRows_append (xs ys : List RawRecord) (ts : String)
    (a b : List (List (String × PyVal)))
    (hx : App.collectRows xs ts = Option.some a)
    (hy : App.collectRows ys ts = Option.some b) :
    App.collectRows (xs ++ ys) ts = Option.some (a ++ b) := by
  rw [App.collectRows] at hx hy ⊢
  rcases hpx : App.collectParsed xs with _ | pa <;> rw [hpx] at hx
  · simp at hx
  rcases hpy : App.collectParsed ys with _ | pb <;> rw [hpy] at hy
  · simp at hy
  simp only [Option.map, Option.some.injEq] at hx hy
  subst hx; subst hy
  rw [collectParsed_append xs ys pa pb hpx hpy]
  simp [Option.map]

/-- Counting the records of a page block agrees with the length of the
concatenation of the block. -/
theorem rawSeenFrom_eq_length (pages : Nat → Option (List RawRecord)) :
    ∀ (n p : Nat),
      App.rawSeenFrom pages p n = (App.pagesConcat pages p n).length := by
  intro n
  induction n with
  | zero => intro p; rfl
  | succ n ih =>
    intro p
    simp [App.rawSeenFrom, App.pagesConcat, ih (p + 1)]

/-- Invariant of the pagination loop: a normal exit means some page in
range came back empty or null, and the accumulated rows are exactly the
initial rows followed by one row per raw record of the pages before it,
in page order. -/
theorem appCollectAux_ok (pages : Nat → Option (List RawRecord))
    (total : Nat) (ts : String) :
    ∀ (fuel pageNum : Nat) (acc rows : List (List (String × PyVal))),
      App.appCollectAux pages total ts fuel pageNum acc =
        App.RunResult.ok rows →
      ∃ n rest,
        App.pageIsEmpty (pages (pageNum + n)) = true ∧
        App.collectRows (App.pagesConcat pages pageNum n) ts =
          Option.some rest ∧
        rows = acc ++ rest := by
  intro fuel
  induction fuel with
  | zero =>
    intro pageNum acc rows h
    exact absurd h (by simp [App.appCollectAux])
  | succ fuel ih =>
    intro pageNum acc rows h
    rcases hp : pages pageNum with _ | books
    · simp only [App.appCollectAux, hp] at h
      obtain rfl := App.RunResult.ok.inj h
      refine ⟨0, [], ?_, rfl, by simp⟩
      simp [App.pageIsEmpty, hp]
    rcases hbe : books.isEmpty with _ | _
    · rcases hc : App.collectRows books ts with _ | newRows
      · simp only [App.appCollectAux, hp, hbe, hc] at h
        simp at h
      by_cases ht : total = 0
      · simp only [App.appCollectAux, hp, hbe, hc, if_pos ht] at h
        simp at h
      · simp only [App.appCollectAux, hp, hbe, hc, if_neg ht] at h
        obtain ⟨n, rest, hempty, hcollect, hrows⟩ :=
          ih (pageNum + 1) (acc ++ newRows) rows h
        refine ⟨n + 1, newRows ++ rest, ?_, ?_, ?_⟩
        · have harith : pageNum + (n + 1) = pageNum + 1 + n := by omega
          rw [harith]; exact hempty
        · show App.collectRows
            (((pages pageNum).getD []) ++
              App.pagesConcat pages (pageNum + 1) n) ts =
            Option.some (newRows ++ rest)
          rw [hp]
          exact collectRows_append books _ ts newRows rest hc hcollect
        · rw [hrows, List.append_assoc]
    · simp only [App.appCollectAux, hp, hbe, if_true] at h
      obtain rfl := App.RunResult.ok.inj h
      refine ⟨0, [], ?_, rfl, by simp⟩
      have hnil : books = [] := List.isEmpty_iff.mp hbe
      simp [App.pageIsEmpty, hp, hnil]

/-- The loop cannot run out of fuel when an empty or null page lies
within fuel reach of the current page. -/
theorem appCollectAux_not_fuelOut (pages : Nat → Option (List RawRecord))
    (total : Nat) (ts : String) :
    ∀ (fuel pageNum : Nat) (acc : List (List (String × PyVal)))
      (q : Nat), pageNum ≤ q → q < pageNum + fuel →
      App.pageIsEmpty (pages q) = true →
      App.appCollectAux pages total ts fuel pageNum acc ≠
        App.RunResult.fuelOut := by
  intro fuel
  induction fuel with
  | zero =>
    intro pageNum acc q h1 h2 _ _
    omega
  | succ fuel ih =>
    intro pageNum acc q h1 h2 hq h
    rcases hp : pages pageNum with _ | books
    · simp only [App.appCollectAux, hp] at h
      simp at h
    rcases hbe : books.isEmpty with _ | _
    · rcases hc : App.collectRows books ts with _ | newRows
      · simp only [App.appCollectAux, hp, hbe, hc] at h
        simp at h
      by_cases ht : total = 0
      · simp only [App.appCollectAux, hp, hbe, hc, if_pos ht] at h
        simp at h
      · simp only [App.appCollectAux, hp, hbe, hc, if_neg ht] at h
        have hne : q ≠ pageNum := by
          intro e
          subst e
          rw [hp] at hq
          simp [App.pageIsEmpty, hbe] at hq
        exact ih (pageNum + 1) (acc ++ newRows) q (by omega) (by omega) hq h
    · simp only [App.appCollectAux, hp, hbe] at h
      simp at h

/-! Claim theorems. -/

/-- Claim C3: for every raw record whose authors field is absent, and
likewise when the authors list is empty, the scraper_util normalizer
produces a row whose prime_authors field equals the string Unknown. -/
theorem c3_missing_authors_unknown (book : RawRecord)
    (h : book.authors = Option.none ∨ book.authors = Option.some []) :
    (ScraperUtil.parse_books_data book).map ScraperUtil.Book.prime_authors =
      Option.some ("Unknown") := by
  rcases h with h | h <;> · simp only [ScraperUtil.parse_books_data, h]; rfl

/-- Witness for C3 at a concrete record with no authors key. -/
theorem c3_witness :
    (emptyRaw.authors = Option.none ∨
      emptyRaw.authors = Option.some []) ∧
    (ScraperUtil.parse_books_data emptyRaw).map
      ScraperUtil.Book.prime_authors = Option.some ("Unknown") :=
  ⟨Or.inl rfl, c3_missing_authors_unknown emptyRaw (Or.inl rfl)⟩

/-- Record on which the scraper_util normalizer raises: its single
author entry has no name key, so the name comprehension yields None and
str.join raises TypeError. -/
def c4Bad : RawRecord :=
  { emptyRaw with authors := Option.some [⟨Option.none⟩] }

/-- Counterexample to claim C4 as stated: normalize does raise on a
record whose author entry lacks a name field (embedded as returning
none, the TypeError outcome), at an explicit concrete input. -/
theorem c4_counterexample :
    ScraperUtil.parse_books_data c4Bad = Option.none := by decide

/-- Amended claim C4: for every raw record each of whose author entries
carries a name field, the scraper_util normalizer returns normally even
when any other optional source field is absent or null, and the
resulting dict contains exactly the section 4.3 output keys in order;
when some author entry lacks a name the normalizer raises TypeError. -/
theorem c4_amended_no_raise (book : RawRecord)
    (h : ∀ a ∈ book.authors.getD [], a.name ≠ Option.none) :
    ∃ b, ScraperUtil.parse_books_data book = Option.some b ∧
      (ScraperUtil.asdictPairs b).map Prod.fst = specSection43Fields := by
  rcases hb : book.authors with _ | (_ | ⟨a, rest⟩)
  · simp only [ScraperUtil.parse_books_data, hb]
    exact ⟨_, rfl, rfl⟩
  · simp only [ScraperUtil.parse_books_data, hb]
    exact ⟨_, rfl, rfl⟩
  · obtain ⟨ss, hss⟩ := collectStrings_authorNames_isSome (a :: rest)
      (by rw [hb] at h; exact h)
    simp only [ScraperUtil.parse_books_data, hb, pyJoin, hss, Option.map]
    exact ⟨_, rfl, rfl⟩

/-- Witness for C4 at a concrete record whose two author entries both
carry names while every other field is absent. -/
theorem c4_witness :
    (∀ a ∈ (RawRecord.authors
        { emptyRaw with
            authors := Option.some [⟨Option.some ("A")⟩,
              ⟨Option.some ("B")⟩] }).getD [],
      a.name ≠ Option.none) ∧
    ∃ b, ScraperUtil.parse_books_data
        { emptyRaw with
            authors := Option.some [⟨Option.some ("A")⟩,
              ⟨Option.some ("B")⟩] } = Option.some b ∧
      (ScraperUtil.asdictPairs b).map Prod.fst = specSection43Fields :=
  ⟨by decide,
   c4_amended_no_raise
     { emptyRaw with
         authors := Option.some [⟨Option.some ("A")⟩,
           ⟨Option.some ("B")⟩] }
     (by decide)⟩

/-- The concrete raw record of the section 8 example of the spec. -/
def c5Record : RawRecord :=
  { emptyRaw with
      id := Option.some ("42")
      title := Option.some ("Foo")
      authors := Option.some [⟨Option.some ("A")⟩, ⟨Option.some ("B")⟩]
      book_url := Option.some ("/b/42") }

/-- The normalized row the spec example expects. -/
def c5Expected : ScraperUtil.Book :=
  { book_id := Option.some ("42")
    book_title := Option.some ("Foo")
    book_subtitle := Option.none
    book_description := Option.none
    publisher := Option.none
    edition := Option.none
    publication_date := Option.none
    publication_month_year := Option.none
    publication_year := Option.none
    price := Option.none
    prime_authors := "A, B"
    num_authors := Option.none
    book_url := "https://www.ebooks.com/b/42"
    book_image_url := Option.none }

/-- Claim C5: the spec example record normalizes to book_id 42, title
Foo, prime_authors the comma-join A, B, book_url the relative URL
resolved against the site root, all other fields at their defaults;
moreover an absolute source URL passes through urljoin unchanged and an
absent book_url yields the site root alone. -/
theorem c5_example_normalization :
    ScraperUtil.parse_books_data c5Record = Option.some c5Expected ∧
    urljoin website_url (Option.some ("https://example.org/b/1")) =
      "https://example.org/b/1" ∧
    urljoin website_url Option.none = website_url := by
  refine ⟨by decide, by decide, rfl⟩

/-- A healthy subject-menu response: four subject_menus entries, so the
positional reads at 1, 2 and 3 all succeed. -/
def c6Resp : MenuResponse :=
  ⟨[⟨[⟨"Root", 184⟩]⟩, ⟨[⟨"Pop", 7⟩]⟩, ⟨[⟨"Fic", 8⟩]⟩, ⟨[⟨"NonFic", 9⟩]⟩]⟩

/-- Menu oracle returning the healthy response to every request. -/
def c6Oracle : MenuRequest → MenuResponse := fun _ => c6Resp

/-- Counterexample to claim C6 as stated: on a healthy response the
scraper_util getCategoryGroups issues three requests to the
subject-menu endpoint, not exactly one. -/
theorem c6_counterexample :
    ¬((ScraperUtil.get_category_subjects c6Oracle).2.length = 1) := by
  decide

/-- The scraper_functions variant always issues exactly one request. -/
theorem sf_requests_singleton (oracle : MenuRequest → MenuResponse) :
    (ScraperFunctions.get_category_subjects oracle).2 =
      [menuRequest 184] := by
  simp only [ScraperFunctions.get_category_subjects]
  rcases menuGroupAt (oracle (menuRequest 184)) 1 with _ | p <;>
    rcases menuGroupAt (oracle (menuRequest 184)) 2 with _ | f <;>
    rcases menuGroupAt (oracle (menuRequest 184)) 3 with _ | n <;>
    rfl

/-- Amended claim C6: the scraper_util getCategoryGroups issues three
identical requests to the subject-menu endpoint, each with the fixed
root subject id 184 (the scraper_functions variant issues exactly one
such request), and on success it partitions the returned
subject_menus array by fixed positional index (1 Popular, 2 Fiction,
3 Non-Fiction) into three name-to-id mappings returned in that
order. -/
theorem c6_amended (oracle : MenuRequest → MenuResponse)
    (groups : List (List (String × Int))) (reqs : List MenuRequest)
    (h : ScraperUtil.get_category_subjects oracle =
      (Option.some groups, reqs)) :
    reqs = [menuRequest 184, menuRequest 184, menuRequest 184] ∧
    (ScraperFunctions.get_category_subjects oracle).2 =
      [menuRequest 184] ∧
    ∃ popular fiction nonFiction,
      groups = [popular, fiction, nonFiction] ∧
      menuGroupAt (oracle (menuRequest 184)) 1 = Option.some popular ∧
      menuGroupAt (oracle (menuRequest 184)) 2 = Option.some fiction ∧
      menuGroupAt (oracle (menuRequest 184)) 3 = Option.some nonFiction := by
  simp only [ScraperUtil.get_category_subjects] at h
  rcases h1 : menuGroupAt (oracle (menuRequest 184)) 1 with _ | p <;>
    rw [h1] at h
  · exact absurd h (by simp)
  rcases h2 : menuGroupAt (oracle (menuRequest 184)) 2 with _ | f <;>
    rw [h2] at h
  · exact absurd h (by simp)
  rcases h3 : menuGroupAt (oracle (menuRequest 184)) 3 with _ | n <;>
    rw [h3] at h
  · exact absurd h (by simp)
  simp only [Prod.mk.injEq, Option.some.injEq] at h
  obtain ⟨hg, hr⟩ := h
  subst hg; subst hr
  exact ⟨rfl, sf_requests_singleton oracle, p, f, n, rfl, rfl, rfl, rfl⟩

/-- Witness for the amended C6 at the healthy concrete oracle. -/
theorem c6_witness :
    ScraperUtil.get_category_subjects c6Oracle =
      (Option.some [[(("Pop"), (7 : Int))], [(("Fic"), (8 : Int))],
        [(("NonFic"), (9 : Int))]],
       [menuRequest 184, menuRequest 184, menuRequest 184]) ∧
    ([menuRequest 184, menuRequest 184, menuRequest 184] =
        [menuRequest 184, menuRequest 184, menuRequest 184] ∧
      (ScraperFunctions.get_category_subjects c6Oracle).2 =
        [menuRequest 184] ∧
      ∃ popular fiction nonFiction,
        [[(("Pop"), (7 : Int))], [(("Fic"), (8 : Int))],
          [(("NonFic"), (9 : Int))]] = [popular, fiction, nonFiction] ∧
        menuGroupAt (c6Oracle (menuRequest 184)) 1 = Option.some popular ∧
        menuGroupAt (c6Oracle (menuRequest 184)) 2 = Option.some fiction ∧
        menuGroupAt (c6Oracle (menuRequest 184)) 3 =
          Option.some nonFiction) :=
  ⟨by decide,
   c6_amended c6Oracle
     [[(("Pop"), (7 : Int))], [(("Fic"), (8 : Int))],
       [(("NonFic"), (9 : Int))]]
     [menuRequest 184, menuRequest 184, menuRequest 184] (by decide)⟩

/-- A normalized row with every defaultable field at its default. -/
def c7Row : ScraperUtil.Book :=
  { book_id := Option.none
    book_title := Option.none
    book_subtitle := Option.none
    book_description := Option.none
    publisher := Option.none
    edition := Option.none
    publication_date := Option.none
    publication_month_year := Option.none
    publication_year := Option.none
    price := Option.none
    prime_authors := "Unknown"
    num_authors := Option.none
    book_url := website_url
    book_image_url := Option.none }

/-- Counterexample to claim C7 as stated: the keys of an exported row
do not coincide with the section 4.3 field list, at an explicit
concrete row and timestamp. -/
theorem c7_counterexample :
    ¬((App.appRow ("2024-01-01 00:00:00") c7Row).map Prod.fst =
      specSection43Fields) := by decide

/-- Amended claim C7: the exported header is the section 4.3 field
list with one extra trailing column, scrape_timestamp, which app.py
assigns onto every row dict after normalization. -/
theorem c7_amended (ts : String) (b : ScraperUtil.Book) :
    (App.appRow ts b).map Prod.fst =
      specSection43Fields ++ [(("scrape_timestamp"))] := rfl

/-- Counterexample to claim C8 as stated: on the record with no
authors key the two normalizers disagree on the author-string field
(Unknown against the empty string). -/
theorem c8_counterexample :
    (ScraperUtil.parse_books_data emptyRaw).map
        ScraperUtil.Book.prime_authors ≠
      (ScraperFunctions.parse_books_data emptyRaw).map
        ScraperFunctions.Book.authors := by decide

/-- Amended claim C8: whenever both normalizers return a row for the
same raw record they agree on every shared output field except the
author string: there scraper_util substitutes Unknown exactly when the
scraper_functions value is the empty string, and otherwise the two
agree. -/
theorem c8_amended (book : RawRecord)
    (bu : ScraperUtil.Book) (bf : ScraperFunctions.Book)
    (hu : ScraperUtil.parse_books_data book = Option.some bu)
    (hf : ScraperFunctions.parse_books_data book = Option.some bf) :
    bu.book_id = bf.book_id ∧ bu.book_title = bf.book_title ∧
    bu.publication_year = bf.publication_year ∧ bu.price = bf.price ∧
    bu.book_url = bf.book_url ∧ bu.book_image_url = bf.book_image_url ∧
    bu.prime_authors =
      (if bf.authors = "" then "Unknown" else bf.authors) := by
  rcases hb : book.authors with _ | (_ | ⟨a, rest⟩)
  · have hu2 : ScraperUtil.parse_books_data book = Option.some
        { book_id := book.id
          book_title := book.title
          book_subtitle := book.subtitle
          book_description := book.description
          publisher := book.publisher
          edition := book.edition
          publication_date := book.on_sale_date
          publication_month_year := book.short_publication_date
          publication_year := book.publication_year
          price := book.price
          prime_authors := "Unknown"
          num_authors := book.num_authors
          book_url := urljoin website_url book.book_url
          book_image_url := book.image_url } := by
      rw [ScraperUtil.parse_books_data, hb]; rfl
    have hf2 : ScraperFunctions.parse_books_data book = Option.some
        { book_id := book.id
          book_title := book.title
          publication_year := book.publication_year
          price := book.price
          authors := ""
          book_url := urljoin website_url book.book_url
          book_image_url := book.image_url } := by
      rw [ScraperFunctions.parse_books_data, hb]
    rw [hu2] at hu; rw [hf2] at hf
    obtain rfl := Option.some.inj hu
    obtain rfl := Option.some.inj hf
    exact ⟨rfl, rfl, rfl, rfl, rfl, rfl, rfl⟩
  · have hu2 : ScraperUtil.parse_books_data book = Option.some
        { book_id := book.id
          book_title := book.title
          book_subtitle := book.subtitle
          book_description := book.description
          publisher := book.publisher
          edition := book.edition
          publication_date := book.on_sale_date
          publication_month_year := book.short_publication_date
          publication_year := book.publication_year
          price := book.price
          prime_authors := "Unknown"
          num_authors := book.num_authors
          book_url := urljoin website_url book.book_url
          book_image_url := book.image_url } := by
      rw [ScraperUtil.parse_books_data, hb]; rfl
    have hf2 : ScraperFunctions.parse_books_data book = Option.some
        { book_id := book.id
          book_title := book.title
          publication_year := book.publication_year
          price := book.price
          authors := ""
          book_url := urljoin website_url book.book_url
          book_image_url := book.image_url } := by
      rw [ScraperFunctions.parse_books_data, hb]; rfl
    rw [hu2] at hu; rw [hf2] at hf
    obtain rfl := Option.some.inj hu
    obtain rfl := Option.some.inj hf
    exact ⟨rfl, rfl, rfl, rfl, rfl, rfl, rfl⟩
  · rcases hj : pyJoin (", ") (authorNames (a :: rest)) with _ | s
    · have hu2 : ScraperUtil.parse_books_data book = Option.none := by
        rw [ScraperUtil.parse_books_data, hb]; simp only [hj]
      rw [hu2] at hu
      exact absurd hu (by simp)
    · have hu2 : ScraperUtil.parse_books_data book = Option.some
          { book_id := book.id
            book_title := book.title
            book_subtitle := book.subtitle
            book_description := book.description
            publisher := book.publisher
            edition := book.edition
            publication_date := book.on_sale_date
            publication_month_year := book.short_publication_date
            publication_year := book.publication_year
            price := book.price
            prime_authors := if s = "" then "Unknown" else s
            num_authors := book.num_authors
            book_url := urljoin website_url book.book_url
            book_image_url := book.image_url } := by
        rw [ScraperUtil.parse_books_data, hb]; simp only [hj]
      have hf2 : ScraperFunctions.parse_books_data book = Option.some
          { book_id := book.id
            book_title := book.title
            publication_year := book.publication_year
            price := book.price
            authors := s
            book_url := urljoin website_url book.book_url
            book_image_url := book.image_url } := by
        rw [ScraperFunctions.parse_books_data, hb]; simp only [hj]
      rw [hu2] at hu; rw [hf2] at hf
      obtain rfl := Option.some.inj hu
      obtain rfl := Option.some.inj hf
      exact ⟨rfl, rfl, rfl, rfl, rfl, rfl, rfl⟩

/-- Concrete record with one named author for the C8 witness. -/
def c8wBook : RawRecord :=
  { emptyRaw with authors := Option.some [⟨Option.some ("A")⟩] }

/-- Row the scraper_util normalizer returns for the C8 witness. -/
def c8wBu : ScraperUtil.Book :=
  { c7Row with prime_authors := "A" }

/-- Row the scraper_functions normalizer returns for the C8 witness. -/
def c8wBf : ScraperFunctions.Book :=
  { book_id := Option.none
    book_title := Option.none
    publication_year := Option.none
    price := Option.none
    authors := "A"
    book_url := website_url
    book_image_url := Option.none }

/-- Witness for the amended C8 at the one-author concrete record. -/
theorem c8_witness :
    ScraperUtil.parse_books_data c8wBook = Option.some c8wBu ∧
    ScraperFunctions.parse_books_data c8wBook = Option.some c8wBf ∧
    (c8wBu.book_id = c8wBf.book_id ∧
      c8wBu.book_title = c8wBf.book_title ∧
      c8wBu.publication_year = c8wBf.publication_year ∧
      c8wBu.price = c8wBf.price ∧
      c8wBu.book_url = c8wBf.book_url ∧
      c8wBu.book_image_url = c8wBf.book_image_url ∧
      c8wBu.prime_authors =
        (if c8wBf.authors = "" then "Unknown" else c8wBf.authors)) :=
  ⟨by decide, by decide,
   c8_amended c8wBook c8wBu c8wBf (by decide) (by decide)⟩

/-- Claim C9: the four collaborator operations app.py invokes during
the extraction flow are not among the names scraper_util defines (the
module defines differently named counterparts), so every run of the
flow fails at attribute lookup, before any page is fetched; the first
missing name is looked up when resolving topics, ahead of the
pagination loop. -/
theorem c9_name_mismatch :
    ("get_topics_for_subject") ∉ scraperUtilDefinedNames ∧
    ("fetch_total_books_count") ∉ scraperUtilDefinedNames ∧
    ("fetch_books_data") ∉ scraperUtilDefinedNames ∧
    ("parse_books_details") ∉ scraperUtilDefinedNames ∧
    ("get_topics_for_subject") ∈ appCalledNames ∧
    ("fetch_total_books_count") ∈ appCalledNames ∧
    ("fetch_books_data") ∈ appCalledNames ∧
    ("parse_books_details") ∈ appCalledNames ∧
    appCalledNames.filter
        (fun n => ¬(n ∈ scraperUtilDefinedNames)) =
      [("get_topics_for_subject"), ("fetch_total_books_count"),
        ("fetch_books_data"), ("parse_books_details")] := by decide

/-- Claim C1: whenever the pagination loop exits normally, some page
came back empty or null, every raw record of the preceding pages was
normalized and appended exactly once in page order, and the number of
collected rows equals the number of raw records seen, whatever the
expected total obtained beforehand was. -/
theorem c1_collected_equals_raw (pages : Nat → Option (List RawRecord))
    (total : Nat) (ts : String) (fuel : Nat)
    (rows : List (List (String × PyVal)))
    (h : App.appCollect pages total ts fuel = App.RunResult.ok rows) :
    ∃ n, App.pageIsEmpty (pages (1 + n)) = true ∧
      App.collectRows (App.pagesConcat pages 1 n) ts = Option.some rows ∧
      rows.length = App.rawSeenFrom pages 1 n := by
  obtain ⟨n, rest, hempty, hcollect, hrows⟩ :=
    appCollectAux_ok pages total ts fuel 1 [] rows h
  simp only [List.nil_append] at hrows
  subst hrows
  refine ⟨n, hempty, hcollect, ?_⟩
  rw [rawSeenFrom_eq_length]
  exact collectRows_length _ ts _ hcollect

/-- Page oracle for the loop witnesses: page 1 holds two records, and
every later page is empty. -/
def wPages : Nat → Option (List RawRecord) :=
  fun p => if p = 1 then Option.some [emptyRaw, c5Record]
    else Option.some []

/-- The rows the modelled run collects on the witness oracle. -/
def wRows : List (List (String × PyVal)) :=
  match App.appCollect wPages 99 ("ts") 5 with
  | App.RunResult.ok rows => rows
  | _ => []

/-- Witness for C1 on the concrete two-record oracle with a mismatched
expected total of 99. -/
theorem c1_witness :
    App.appCollect wPages 99 ("ts") 5 = App.RunResult.ok wRows ∧
    ∃ n, App.pageIsEmpty (wPages (1 + n)) = true ∧
      App.collectRows (App.pagesConcat wPages 1 n) ("ts") =
        Option.some wRows ∧
      wRows.length = App.rawSeenFrom wPages 1 n :=
  ⟨rfl, c1_collected_equals_raw wPages 99 ("ts") 5 wRows rfl⟩

/-- Claim C2: the loop breaks only on an empty or null page, and
whenever some page numbered at most K comes back empty or null the
run with K iterations of fuel never exhausts it, whatever the expected
total was: termination does not depend on any max-page cap derived
from the total. -/
theorem c2_terminates (pages : Nat → Option (List RawRecord))
    (total : Nat) (ts : String) (K p0 : Nat)
    (h1 : 1 ≤ p0) (h2 : p0 ≤ K)
    (h3 : App.pageIsEmpty (pages p0) = true) :
    App.appCollect pages total ts K ≠ App.RunResult.fuelOut :=
  appCollectAux_not_fuelOut pages total ts K 1 [] p0 h1 (by omega) h3

/-- Witness for C2 on the concrete oracle whose page 2 is empty. -/
theorem c2_witness :
    ((1 : Nat) ≤ 2 ∧ (2 : Nat) ≤ 5 ∧
      App.pageIsEmpty (wPages 2) = true) ∧
    App.appCollect wPages 99 ("ts") 5 ≠ App.RunResult.fuelOut :=
  ⟨⟨by decide, by decide, by decide⟩,
   c2_terminates wPages 99 ("ts") 5 2 (by decide) (by decide) (by decide)⟩

/-- Claim C10: when the expected total is zero and the first page
nevertheless yields records (all of which normalize), the progress
computation divides by zero, so the run aborts with ZeroDivisionError
and never produces a row collection for export. -/
theorem c10_div_by_zero (pages : Nat → Option (List RawRecord))
    (ts : String) (books : List RawRecord)
    (rows : List (List (String × PyVal))) (fuel : Nat)
    (h1 : pages 1 = Option.some books)
    (h2 : books.isEmpty = false)
    (h3 : App.collectRows books ts = Option.some rows) :
    App.appCollect pages 0 ts (fuel + 1) =
      App.RunResult.err ("ZeroDivisionError") := by
  simp only [App.appCollect, App.appCollectAux, h1, h2, h3]
  rfl

/-- The rows page 1 of the witness oracle normalizes to. -/
def wFirstRows : List (List (String × PyVal)) :=
  match App.collectRows [emptyRaw, c5Record] ("ts") with
  | Option.some rows => rows
  | Option.none => []

/-- Witness for C10 on the concrete oracle with a zero expected
total. -/
theorem c10_witness :
    (wPages 1 = Option.some [emptyRaw, c5Record] ∧
      ([emptyRaw, c5Record] : List RawRecord).isEmpty = false ∧
      App.collectRows [emptyRaw, c5Record] ("ts") =
        Option.some wFirstRows) ∧
    App.appCollect wPages 0 ("ts") 3 =
      App.RunResult.err ("ZeroDivisionError") :=
  ⟨⟨rfl, rfl, rfl⟩,
   c10_div_by_zero wPages ("ts") [emptyRaw, c5Record] wFirstRows 2
     rfl rfl rfl⟩

end EbooksExtractor

